import Mathlib

/-!
Verification of the report-delivery HTTP service (`src/server/app.py`).

The service exposes `GET /health` and `POST /send-report`.  `send_report`
validates four required JSON fields, builds an email whose attachment is the
base64-encoded UTF-8 rendering of the submitted HTML, and hands it to an
injected mail capability (`send_email`).  The development below is a shallow
embedding of that handler: JSON values are an inductive type with Python
truthiness, the mail capability is a function returning `Except` (raising =
`.error`), the two `datetime.now()` calls are explicit parameters, and the
handler returns both the HTTP response and the list of mail-capability
invocations it performed.
-/

namespace EvalPlanner

/-- JSON values as Python's `json.loads` produces them (numbers are modelled
as integers; fractional values play no role in any property considered). -/
inductive Json where
  | null
  | bool (b : Bool)
  | num (n : Int)
  | str (s : String)
  | arr (xs : List Json)
  | obj (kvs : List (String × Json))

/-- Python truthiness (`not data.get(field)` in the validation loop):
`None`, `False`, `0`, `""`, `[]` and `\x7b\x7d` are falsy. -/
def pyFalsy : Json → Bool
  | .null => true
  | .bool b => !b
  | .num n => n == 0
  | .str s => s == ""
  | .arr xs => xs.isEmpty
  | .obj kvs => kvs.isEmpty

/-- Python type name of a value, as it appears in `AttributeError` messages. -/
def pyTypeName : Json → String
  | .null => "NoneType"
  | .bool _ => "bool"
  | .num _ => "int"
  | .str _ => "str"
  | .arr _ => "list"
  | .obj _ => "dict"

/-- Escaping of one character inside a Python `repr` of a string.  This covers
backslash, the quote character and the common control characters; the less
common `\xNN` escapes and the double-quote-preference rule of `repr` are not
modelled (no property below depends on the `repr` of a container value). -/
def pyReprEscapeChar (c : Char) : String :=
  if c = '\\' then "\\\\"
  else if c = Char.ofNat 39 then "\\\x27"
  else if c = '\n' then "\\n"
  else if c = Char.ofNat 13 then "\\r"
  else if c = '\t' then "\\t"
  else String.singleton c

mutual

/-- Python `repr` of a JSON-shaped value (used by `str()` for containers). -/
def pyRepr : Json → String
  | .null => "None"
  | .bool true => "True"
  | .bool false => "False"
  | .num n => toString n
  | .str s => "\x27" ++ String.join (s.toList.map pyReprEscapeChar) ++ "\x27"
  | .arr xs => "[" ++ String.intercalate ", " (pyReprList xs) ++ "]"
  | .obj kvs => "\x7b" ++ String.intercalate ", " (pyReprKVs kvs) ++ "\x7d"

/-- Element renderings of a Python list `repr`. -/
def pyReprList : List Json → List String
  | [] => []
  | x :: xs => pyRepr x :: pyReprList xs

/-- Entry renderings of a Python dict `repr`. -/
def pyReprKVs : List (String × Json) → List String
  | [] => []
  | (k, v) :: kvs =>
      ("\x27" ++ String.join (k.toList.map pyReprEscapeChar) ++ "\x27: " ++ pyRepr v) ::
        pyReprKVs kvs

end

/-- Python `str()` of a value, as f-string interpolation applies it. -/
def pyStr : Json → String
  | .null => "None"
  | .bool true => "True"
  | .bool false => "False"
  | .num n => toString n
  | .str s => s
  | v => pyRepr v

/-- Lookup in a parsed JSON object, as Python `dict.get(key)`: absent keys
give `None`; with duplicate keys `json.loads` keeps the last binding. -/
def dictGet (data : List (String × Json)) (k : String) : Json :=
  match data.reverse.find? (fun p => p.1 == k) with
  | some p => p.2
  | none => Json.null

/-- Wall-clock instant as `datetime.now()` returns it (naive local time,
so it carries no timezone name). -/
structure DateTime where
  year : Nat
  month : Nat
  day : Nat
  hour : Nat
  minute : Nat
  second : Nat
  microsecond : Nat

def monthNames : List String :=
  ["January", "February", "March", "April", "May", "June", "July",
   "August", "September", "October", "November", "December"]

/-- strftime `%B`: full month name. -/
def monthName (m : Nat) : String := monthNames.getD (m - 1) ""

/-- Zero-padding to two digits, as strftime `%d`, `%I`, `%M` produce. -/
def pad2 (n : Nat) : String := if n < 10 then "0" ++ toString n else toString n

/-- Zero-padding to four digits (isoformat year). -/
def pad4 (n : Nat) : String :=
  if n < 10 then "000" ++ toString n
  else if n < 100 then "00" ++ toString n
  else if n < 1000 then "0" ++ toString n
  else toString n

/-- Zero-padding to six digits (isoformat microseconds). -/
def pad6 (n : Nat) : String :=
  if n < 10 then "00000" ++ toString n
  else if n < 100 then "0000" ++ toString n
  else if n < 1000 then "000" ++ toString n
  else if n < 10000 then "00" ++ toString n
  else if n < 100000 then "0" ++ toString n
  else toString n

/-- strftime `%I`: hour on a 12-hour clock, 0 and 12 both shown as 12. -/
def hour12 (h : Nat) : Nat := if h % 12 = 0 then 12 else h % 12

/-- strftime `%p` in the C locale. -/
def meridiem (h : Nat) : String := if h < 12 then "AM" else "PM"

/-- strftime `%Z` of a naive datetime: the empty string
(`datetime.now()` carries no timezone). -/
def tzNameNaive : String := ""

/-- The handler's `datetime.now().strftime('%B %d, %Y at %I:%M %p %Z')`,
directive by directive; `%Z` renders empty, leaving the space before it. -/
def strftimeReport (d : DateTime) : String :=
  monthName d.month ++ " " ++ pad2 d.day ++ ", " ++ toString d.year ++ " at " ++
    pad2 (hour12 d.hour) ++ ":" ++ pad2 d.minute ++ " " ++ meridiem d.hour ++ " " ++ tzNameNaive

/-- Timestamp exactly as the specification words it: `Month Day, Year at
HH:MM AM/PM`, with nothing after the AM/PM marker.  Second definition written
from the spec, for comparison with `strftimeReport` (the code). -/
def specTimestamp (d : DateTime) : String :=
  monthName d.month ++ " " ++ pad2 d.day ++ ", " ++ toString d.year ++ " at " ++
    pad2 (hour12 d.hour) ++ ":" ++ pad2 d.minute ++ " " ++ meridiem d.hour

/-- Python `datetime.isoformat()` of a naive datetime: microseconds are
printed only when nonzero. -/
def isoformat (d : DateTime) : String :=
  pad4 d.year ++ "-" ++ pad2 d.month ++ "-" ++ pad2 d.day ++ "T" ++
    pad2 d.hour ++ ":" ++ pad2 d.minute ++ ":" ++ pad2 d.second ++
    (if d.microsecond = 0 then "" else "." ++ pad6 d.microsecond)

/-- UTF-8 encoding of one scalar value (`str.encode('utf-8')`, per code point). -/
def utf8EncodeChar (c : Char) : List Nat :=
  let n := c.toNat
  if n < 128 then [n]
  else if n < 2048 then [192 + n / 64, 128 + n % 64]
  else if n < 65536 then [224 + n / 4096, 128 + n / 64 % 64, 128 + n % 64]
  else [240 + n / 262144, 128 + n / 4096 % 64, 128 + n / 64 % 64, 128 + n % 64]

/-- UTF-8 bytes of a string (`html_content.encode('utf-8')`). -/
def utf8Encode (s : String) : List Nat := (s.toList.map utf8EncodeChar).flatten

/-- The base64 alphabet, as `base64.b64encode` uses it. -/
def b64AlphabetList : List Char :=
  ['A', 'B', 'C', 'D', 'E', 'F', 'G', 'H', 'I', 'J', 'K', 'L', 'M',
   'N', 'O', 'P', 'Q', 'R', 'S', 'T', 'U', 'V', 'W', 'X', 'Y', 'Z',
   'a', 'b', 'c', 'd', 'e', 'f', 'g', 'h', 'i', 'j', 'k', 'l', 'm',
   'n', 'o', 'p', 'q', 'r', 's', 't', 'u', 'v', 'w', 'x', 'y', 'z',
   '0', '1', '2', '3', '4', '5', '6', '7', '8', '9', '+', '/']

/-- Character for a six-bit group. -/
def b64Char (n : Nat) : Char := b64AlphabetList.getD n '?'

/-- Base64 encoding of a byte list with `=` padding
(`base64.b64encode(...).decode('utf-8')`, as a character list). -/
def b64encode : List Nat → List Char
  | [] => []
  | [a] => [b64Char (a / 4), b64Char (a % 4 * 16), '=', '=']
  | [a, b] => [b64Char (a / 4), b64Char (a % 4 * 16 + b / 16), b64Char (b % 16 * 4), '=']
  | a :: b :: c :: rest =>
      b64Char (a / 4) :: b64Char (a % 4 * 16 + b / 16) ::
        b64Char (b % 16 * 4 + c / 64) :: b64Char (c % 64) :: b64encode rest

/-- Six-bit value of a base64 alphabet character, `none` outside the alphabet. -/
def b64CharDecode (c : Char) : Option Nat :=
  let i := b64AlphabetList.indexOf c
  if i < 64 then some i else none

/-- Base64 decoding (standard alphabet, strict `=` padding), inverse of
`b64encode`; `none` on malformed input. -/
def b64decode : List Char → Option (List Nat)
  | [] => some []
  | c1 :: c2 :: c3 :: c4 :: rest =>
      match b64CharDecode c1, b64CharDecode c2 with
      | some s1, some s2 =>
          if c3 = '=' then
            if c4 = '=' ∧ rest = [] then some [s1 * 4 + s2 / 16] else none
          else
            match b64CharDecode c3 with
            | some s3 =>
                if c4 = '=' then
                  if rest = [] then some [s1 * 4 + s2 / 16, s2 % 16 * 16 + s3 / 4] else none
                else
                  match b64CharDecode c4, b64decode rest with
                  | some s4, some r =>
                      some ((s1 * 4 + s2 / 16) :: (s2 % 16 * 16 + s3 / 4) ::
                        (s3 % 4 * 64 + s4) :: r)
                  | _, _ => none
            | none => none
      | _, _ => none
  | _ => none

/-- One attachment as passed to the mail capability (the dict literal in the
`send_email(...)` call). -/
structure Attachment where
  filename : String
  content : String
  contentType : String
  encoding : String

/-- The argument bundle of one `send_email` invocation.  The recipient (the
`to=` keyword argument, a reserved token in Lean) is passed through as the
raw JSON value, exactly as `to=user_email` does. -/
structure EmailMessage where
  recipient : Json
  subject : String
  text : String
  attachments : List Attachment

/-- HTTP response: status code and JSON body (`jsonify` result). -/
structure HttpResponse where
  status : Nat
  body : Json

/-- The body template of the handler (the triple-quoted f-string), with its
three interpolation holes made explicit. -/
def emailBodyTemplate (program_name organization_name current_datetime : String) : String :=
  "Hello,\n\nAttached is the evaluation plan you requested from the LogicalOutcomes Evaluation Planner.\n\nIt is for "
    ++ program_name ++ " delivered by " ++ organization_name ++ ". It was generated on "
    ++ current_datetime
    ++ ".\n\nThis is just a draft. If it is inaccurate, feel free to re-try the Evaluation Planner app but add additional useful information in the form.\n\nIf you have any questions, contact support@logicaloutcomes.com.\n\nBest regards,\nLogicalOutcomes Evaluation Planner"

/-- Filename filter: keep a character when `c.isalnum()` holds or `c` is in
`"._-"`.  Python's `str.isalnum` is Unicode-aware; it is modelled here on the
ASCII range, where it coincides with `Char.isAlphanum`. -/
def filenameKeep (c : Char) : Bool :=
  c.isAlphanum || (c == '.' || c == '_' || c == '-')

/-- Lines 42-83 of the handler: from the extracted field values and the
instant of the first `datetime.now()` call, the argument bundle passed to
`send_email`.  The three f-string interpolations apply Python `str()`;
`html_content` has already been established to be a string (its `.encode`
would otherwise raise). -/
def buildEmailMessage (user_email program_name organization_name : Json)
    (html_content : String) (now : DateTime) : EmailMessage :=
  let current_datetime := strftimeReport now
  let email_body := emailBodyTemplate (pyStr program_name) (pyStr organization_name) current_datetime
  let filename0 := pyStr organization_name ++ "_" ++ pyStr program_name ++ "_Evaluation_Plan.html"
  let filename := (filename0.toList.filter filenameKeep).asString
  let base64_content := (b64encode (utf8Encode html_content)).asString
  { recipient := user_email,
    subject := "Evaluation Plan for " ++ pyStr program_name ++ " - " ++ pyStr organization_name,
    text := email_body,
    attachments := [{ filename := filename, content := base64_content,
                      contentType := "text/html", encoding := "base64" }] }

/-- The fixed validation order of the handler. -/
def required_fields : List String :=
  ["email", "programName", "organizationName", "htmlContent"]

/-- Error body `jsonify(\x7b"error": msg\x7d)`. -/
def errorBody (msg : String) : Json := .obj [("error", .str msg)]

/-- The `POST /send-report` handler.

* `body` is the outcome of `request.get_json()`: `.error m` when it raises
  (absent body, wrong content type, malformed JSON; `m` is the exception
  text), `.ok v` when it parses.
* `send_email` is the injected mail capability: `.error m` models a raised
  exception with text `m`.
* `now` is the `datetime.now()` used for the email timestamp, `now2` the one
  used for the response timestamp.

The result pairs the HTTP response with the list of `send_email` invocations
performed (in order).  The surrounding `try/except Exception` turns every
raised exception `e` into a 500 response wrapping `str(e)`; reading a field
of a non-dict value raises `AttributeError` at `data.get`, and a non-string
truthy `htmlContent` raises `AttributeError` at `.encode('utf-8')`. -/
def send_report (body : Except String Json)
    (send_email : EmailMessage → Except String Unit)
    (now now2 : DateTime) : HttpResponse × List EmailMessage :=
  match body with
  | .error e =>
      ({ status := 500, body := errorBody ("Failed to send email: " ++ e) }, [])
  | .ok (Json.obj data) =>
      match required_fields.find? (fun field => pyFalsy (dictGet data field)) with
      | some field =>
          ({ status := 400, body := errorBody ("Missing required field: " ++ field) }, [])
      | none =>
          let user_email := dictGet data "email"
          let program_name := dictGet data "programName"
          let organization_name := dictGet data "organizationName"
          match dictGet data "htmlContent" with
          | Json.str html_content =>
              let msg := buildEmailMessage user_email program_name organization_name html_content now
              match send_email msg with
              | .ok _ =>
                  ({ status := 200,
                     body := .obj [("success", .bool true),
                                   ("message", .str ("Email sent successfully to " ++ pyStr user_email)),
                                   ("timestamp", .str (isoformat now2))] }, [msg])
              | .error e =>
                  ({ status := 500, body := errorBody ("Failed to send email: " ++ e) }, [msg])
          | other =>
              ({ status := 500,
                 body := errorBody ("Failed to send email: \x27" ++ pyTypeName other ++
                   "\x27 object has no attribute \x27encode\x27") }, [])
  | .ok other =>
      ({ status := 500,
         body := errorBody ("Failed to send email: \x27" ++ pyTypeName other ++
           "\x27 object has no attribute \x27get\x27") }, [])

/-- The `GET /health` handler: `jsonify` of status and the current instant. -/
def health_check (now : DateTime) : HttpResponse :=
  { status := 200,
    body := .obj [("status", .str "healthy"), ("timestamp", .str (isoformat now))] }

/-! Helper lemmas shared by the claim theorems. -/

/-- Code points are below 0x110000. -/
theorem char_toNat_lt (c : Char) : c.toNat < 1114112 := by
  have h := c.valid
  rcases h with h | ⟨_, h2⟩
  · exact Nat.lt_trans h (by norm_num)
  · exact h2

/-- Every UTF-8 byte of one character fits in a byte. -/
theorem utf8EncodeChar_lt (c : Char) : ∀ x ∈ utf8EncodeChar c, x < 256 := by
  have hv := char_toNat_lt c
  intro x hx
  simp only [utf8EncodeChar] at hx
  by_cases h1 : c.toNat < 128
  · simp [h1] at hx; omega
  by_cases h2 : c.toNat < 2048
  · simp [h1, h2] at hx; rcases hx with rfl | rfl <;> omega
  by_cases h3 : c.toNat < 65536
  · simp [h1, h2, h3] at hx; rcases hx with rfl | rfl | rfl <;> omega
  · simp [h1, h2, h3] at hx; rcases hx with rfl | rfl | rfl | rfl <;> omega

/-- Every UTF-8 byte of a string fits in a byte. -/
theorem utf8Encode_lt (s : String) : ∀ x ∈ utf8Encode s, x < 256 := by
  intro x hx
  simp only [utf8Encode, List.mem_flatten, List.mem_map] at hx
  obtain ⟨l, ⟨c, _, rfl⟩, hxl⟩ := hx
  exact utf8EncodeChar_lt c x hxl

/-- Decoding inverts the alphabet map on six-bit values. -/
theorem b64CharDecode_b64Char : ∀ n < 64, b64CharDecode (b64Char n) = some n := by decide

/-- Alphabet characters are never the padding character. -/
theorem b64Char_ne_pad : ∀ n < 64, b64Char n ≠ '=' := by decide

/-- Base64 round trip: decoding an encoded byte list recovers it. -/
theorem b64_roundtrip (l : List Nat) (h : ∀ x ∈ l, x < 256) :
    b64decode (b64encode l) = some l := by
  induction l using b64encode.induct with
  | case1 => rfl
  | case2 a =>
      have ha : a < 256 := h a (by simp)
      have h1 := b64CharDecode_b64Char (a / 4) (by omega)
      have h2 := b64CharDecode_b64Char (a % 4 * 16) (by omega)
      simp [b64encode, b64decode, h1, h2]
      omega
  | case3 a b =>
      have ha : a < 256 := h a (by simp)
      have hb : b < 256 := h b (by simp)
      have h1 := b64CharDecode_b64Char (a / 4) (by omega)
      have h2 := b64CharDecode_b64Char (a % 4 * 16 + b / 16) (by omega)
      have h3 := b64CharDecode_b64Char (b % 16 * 4) (by omega)
      have n3 := b64Char_ne_pad (b % 16 * 4) (by omega)
      simp [b64encode, b64decode, h1, h2, h3, n3]
      omega
  | case4 a b c rest ih =>
      have ha : a < 256 := h a (by simp)
      have hb : b < 256 := h b (by simp)
      have hc : c < 256 := h c (by simp)
      have h1 := b64CharDecode_b64Char (a / 4) (by omega)
      have h2 := b64CharDecode_b64Char (a % 4 * 16 + b / 16) (by omega)
      have h3 := b64CharDecode_b64Char (b % 16 * 4 + c / 64) (by omega)
      have h4 := b64CharDecode_b64Char (c % 64) (by omega)
      have n3 := b64Char_ne_pad (b % 16 * 4 + c / 64) (by omega)
      have n4 := b64Char_ne_pad (c % 64) (by omega)
      have ihr := ih (fun x hx => h x (by simp [hx]))
      simp [b64encode, b64decode, h1, h2, h3, h4, n3, n4, ihr]
      refine ⟨by omega, by omega, by omega⟩

/-- The strftime result is the spec-worded timestamp plus one trailing space
(the space before the empty `%Z`). -/
theorem strftimeReport_eq_specTimestamp (d : DateTime) :
    strftimeReport d = specTimestamp d ++ " " := by
  simp [strftimeReport, specTimestamp, tzNameNaive, String.append_assoc, String.append_empty]

/-- Validation passes when all four required fields hold non-empty strings. -/
theorem find_none_of_wf (data : List (String × Json)) (email prog org html : String)
    (he : dictGet data "email" = .str email) (hee : email ≠ "")
    (hp : dictGet data "programName" = .str prog) (hpe : prog ≠ "")
    (ho : dictGet data "organizationName" = .str org) (hoe : org ≠ "")
    (hh : dictGet data "htmlContent" = .str html) (hhe : html ≠ "") :
    required_fields.find? (fun field => pyFalsy (dictGet data field)) = none := by
  have b1 : (email == "") = false := beq_eq_false_iff_ne.mpr hee
  have b2 : (prog == "") = false := beq_eq_false_iff_ne.mpr hpe
  have b3 : (org == "") = false := beq_eq_false_iff_ne.mpr hoe
  have b4 : (html == "") = false := beq_eq_false_iff_ne.mpr hhe
  simp [required_fields, List.find?, he, hp, ho, hh, pyFalsy, b1, b2, b3, b4]

/-- Normal form of the handler on a well-formed request whose mail call
returns normally. -/
theorem send_report_wf_ok (data : List (String × Json))
    (send_email : EmailMessage → Except String Unit) (now now2 : DateTime)
    (email prog org html : String)
    (he : dictGet data "email" = .str email) (hee : email ≠ "")
    (hp : dictGet data "programName" = .str prog) (hpe : prog ≠ "")
    (ho : dictGet data "organizationName" = .str org) (hoe : org ≠ "")
    (hh : dictGet data "htmlContent" = .str html) (hhe : html ≠ "")
    (hsend : send_email (buildEmailMessage (.str email) (.str prog) (.str org) html now) =
      .ok ()) :
    send_report (.ok (.obj data)) send_email now now2 =
      ({ status := 200,
         body := .obj [("success", .bool true),
                       ("message", .str ("Email sent successfully to " ++ email)),
                       ("timestamp", .str (isoformat now2))] },
       [buildEmailMessage (.str email) (.str prog) (.str org) html now]) := by
  have hfind := find_none_of_wf data email prog org html he hee hp hpe ho hoe hh hhe
  simp [send_report, hfind, he, hp, ho, hh, hsend, pyStr]

/-- Normal form of the handler on a well-formed request whose mail call
raises. -/
theorem send_report_wf_err (data : List (String × Json))
    (send_email : EmailMessage → Except String Unit) (now now2 : DateTime)
    (email prog org html m : String)
    (he : dictGet data "email" = .str email) (hee : email ≠ "")
    (hp : dictGet data "programName" = .str prog) (hpe : prog ≠ "")
    (ho : dictGet data "organizationName" = .str org) (hoe : org ≠ "")
    (hh : dictGet data "htmlContent" = .str html) (hhe : html ≠ "")
    (hsend : send_email (buildEmailMessage (.str email) (.str prog) (.str org) html now) =
      .error m) :
    send_report (.ok (.obj data)) send_email now now2 =
      ({ status := 500, body := .obj [("error", .str ("Failed to send email: " ++ m))] },
       [buildEmailMessage (.str email) (.str prog) (.str org) html now]) := by
  have hfind := find_none_of_wf data email prog org html he hee hp hpe ho hoe hh hhe
  simp [send_report, hfind, he, hp, ho, hh, hsend, errorBody]

/-! Claim theorems. -/

/-- C1: for every request whose four required fields are present as non-empty
strings and whose mail capability returns normally, the response status is
200, the mail capability is invoked exactly once, with exactly one attachment
whose base64 content decodes back to the UTF-8 bytes of the submitted
htmlContent (round trip). -/
theorem send_report_roundtrip (data : List (String × Json))
    (send_email : EmailMessage → Except String Unit) (now now2 : DateTime)
    (email prog org html : String)
    (he : dictGet data "email" = .str email) (hee : email ≠ "")
    (hp : dictGet data "programName" = .str prog) (hpe : prog ≠ "")
    (ho : dictGet data "organizationName" = .str org) (hoe : org ≠ "")
    (hh : dictGet data "htmlContent" = .str html) (hhe : html ≠ "")
    (hsend : ∀ m, send_email m = .ok ()) :
    (send_report (.ok (.obj data)) send_email now now2).1.status = 200 ∧
      ∃ msg att, (send_report (.ok (.obj data)) send_email now now2).2 = [msg] ∧
        msg.attachments = [att] ∧
        b64decode att.content.toList = some (utf8Encode html) := by
  rw [send_report_wf_ok data send_email now now2 email prog org html
    he hee hp hpe ho hoe hh hhe (hsend _)]
  refine ⟨rfl, buildEmailMessage (.str email) (.str prog) (.str org) html now, _,
    rfl, rfl, ?_⟩
  show b64decode (b64encode (utf8Encode html)) = some (utf8Encode html)
  exact b64_roundtrip _ (utf8Encode_lt html)

/-- Witness for C1 at a concrete request. -/
theorem send_report_roundtrip_witness :
    (send_report (.ok (.obj [("email", .str "user@example.com"),
        ("programName", .str "Youth/2024"), ("organizationName", .str "Acme Corp!"),
        ("htmlContent", .str "<h1>x</h1>")]))
      (fun _ => .ok ()) ⟨2026, 10, 12, 15, 5, 7, 123⟩ ⟨2026, 10, 12, 15, 5, 8, 9⟩).1.status
        = 200 ∧
      ∃ msg att, (send_report (.ok (.obj [("email", .str "user@example.com"),
          ("programName", .str "Youth/2024"), ("organizationName", .str "Acme Corp!"),
          ("htmlContent", .str "<h1>x</h1>")]))
        (fun _ => .ok ()) ⟨2026, 10, 12, 15, 5, 7, 123⟩ ⟨2026, 10, 12, 15, 5, 8, 9⟩).2
          = [msg] ∧
        msg.attachments = [att] ∧
        b64decode att.content.toList = some (utf8Encode "<h1>x</h1>") :=
  send_report_roundtrip _ _ ⟨2026, 10, 12, 15, 5, 7, 123⟩ ⟨2026, 10, 12, 15, 5, 8, 9⟩
    "user@example.com" "Youth/2024" "Acme Corp!" "<h1>x</h1>"
    (by rfl) (by decide) (by rfl) (by decide) (by rfl) (by decide) (by rfl) (by decide)
    (fun m => rfl)

/-- C2: a JSON-object request in which some required field is missing or
falsy yields 400 naming the first missing field in the fixed order email,
programName, organizationName, htmlContent. -/
theorem send_report_first_missing_field (data : List (String × Json))
    (send_email : EmailMessage → Except String Unit) (now now2 : DateTime) (f : String)
    (h : (pyFalsy (dictGet data "email") = true ∧ f = "email") ∨
      (pyFalsy (dictGet data "email") = false ∧
        pyFalsy (dictGet data "programName") = true ∧ f = "programName") ∨
      (pyFalsy (dictGet data "email") = false ∧
        pyFalsy (dictGet data "programName") = false ∧
        pyFalsy (dictGet data "organizationName") = true ∧ f = "organizationName") ∨
      (pyFalsy (dictGet data "email") = false ∧
        pyFalsy (dictGet data "programName") = false ∧
        pyFalsy (dictGet data "organizationName") = false ∧
        pyFalsy (dictGet data "htmlContent") = true ∧ f = "htmlContent")) :
    send_report (.ok (.obj data)) send_email now now2 =
      ({ status := 400, body := .obj [("error", .str ("Missing required field: " ++ f))] },
       []) := by
  rcases h with ⟨h1, rfl⟩ | ⟨h1, h2, rfl⟩ | ⟨h1, h2, h3, rfl⟩ | ⟨h1, h2, h3, h4, rfl⟩
  · simp [send_report, required_fields, List.find?, errorBody, h1]
  · simp [send_report, required_fields, List.find?, errorBody, h1, h2]
  · simp [send_report, required_fields, List.find?, errorBody, h1, h2, h3]
  · simp [send_report, required_fields, List.find?, errorBody, h1, h2, h3, h4]

/-- Witness for C2: the empty object is missing every field; the first one
checked is email. -/
theorem send_report_first_missing_field_witness :
    send_report (.ok (.obj [])) (fun _ => .ok ())
      ⟨2026, 10, 12, 15, 5, 7, 123⟩ ⟨2026, 10, 12, 15, 5, 8, 9⟩ =
      ({ status := 400, body := .obj [("error", .str "Missing required field: email")] },
       []) := by
  rw [send_report_first_missing_field [] (fun _ => .ok ())
    ⟨2026, 10, 12, 15, 5, 7, 123⟩ ⟨2026, 10, 12, 15, 5, 8, 9⟩ "email"
    (Or.inl ⟨by decide, rfl⟩)]
  rfl

/-- C3: a request that fails field validation never reaches the mail
capability: the response is 400 and no send is attempted. -/
theorem send_report_invalid_no_send (data : List (String × Json))
    (send_email : EmailMessage → Except String Unit) (now now2 : DateTime)
    (h : ∃ f ∈ required_fields, pyFalsy (dictGet data f) = true) :
    (send_report (.ok (.obj data)) send_email now now2).1.status = 400 ∧
      (send_report (.ok (.obj data)) send_email now now2).2 = [] := by
  have hs : (required_fields.find? (fun field => pyFalsy (dictGet data field))).isSome := by
    rw [List.find?_isSome]
    obtain ⟨f, hf, hpf⟩ := h
    exact ⟨f, hf, hpf⟩
  obtain ⟨g, hg⟩ := Option.isSome_iff_exists.mp hs
  simp [send_report, hg]

/-- Witness for C3: a request carrying only email is rejected with no send. -/
theorem send_report_invalid_no_send_witness :
    (send_report (.ok (.obj [("email", .str "a@b.c")])) (fun _ => .ok ())
        ⟨2026, 10, 12, 15, 5, 7, 123⟩ ⟨2026, 10, 12, 15, 5, 8, 9⟩).1.status = 400 ∧
      (send_report (.ok (.obj [("email", .str "a@b.c")])) (fun _ => .ok ())
        ⟨2026, 10, 12, 15, 5, 7, 123⟩ ⟨2026, 10, 12, 15, 5, 8, 9⟩).2 = [] :=
  send_report_invalid_no_send [("email", .str "a@b.c")] (fun _ => .ok ())
    ⟨2026, 10, 12, 15, 5, 7, 123⟩ ⟨2026, 10, 12, 15, 5, 8, 9⟩
    ⟨"programName", by decide, by rfl⟩

/-- C4: on a well-formed request whose mail capability raises with message m,
the response is 500 with body error "Failed to send email: " ++ m. -/
theorem send_report_mail_failure_500 (data : List (String × Json))
    (send_email : EmailMessage → Except String Unit) (now now2 : DateTime)
    (email prog org html m : String)
    (he : dictGet data "email" = .str email) (hee : email ≠ "")
    (hp : dictGet data "programName" = .str prog) (hpe : prog ≠ "")
    (ho : dictGet data "organizationName" = .str org) (hoe : org ≠ "")
    (hh : dictGet data "htmlContent" = .str html) (hhe : html ≠ "")
    (hsend : ∀ msg, send_email msg = .error m) :
    (send_report (.ok (.obj data)) send_email now now2).1 =
      { status := 500, body := .obj [("error", .str ("Failed to send email: " ++ m))] } := by
  rw [send_report_wf_err data send_email now now2 email prog org html m
    he hee hp hpe ho hoe hh hhe (hsend _)]

/-- Witness for C4: a mail capability that raises "SMTP timeout" produces the
literal 500 body of the claim. -/
theorem send_report_mail_failure_500_witness :
    (send_report (.ok (.obj [("email", .str "a@b.c"), ("programName", .str "P"),
        ("organizationName", .str "O"), ("htmlContent", .str "<p>x</p>")]))
      (fun _ => .error "SMTP timeout")
      ⟨2026, 10, 12, 15, 5, 7, 123⟩ ⟨2026, 10, 12, 15, 5, 8, 9⟩).1 =
      { status := 500, body := .obj [("error", .str "Failed to send email: SMTP timeout")] } := by
  rw [send_report_mail_failure_500 [("email", .str "a@b.c"), ("programName", .str "P"),
      ("organizationName", .str "O"), ("htmlContent", .str "<p>x</p>")]
    (fun _ => .error "SMTP timeout")
    ⟨2026, 10, 12, 15, 5, 7, 123⟩ ⟨2026, 10, 12, 15, 5, 8, 9⟩
    "a@b.c" "P" "O" "<p>x</p>" "SMTP timeout"
    (by rfl) (by decide) (by rfl) (by decide) (by rfl) (by decide) (by rfl) (by decide)
    (fun msg => rfl)]
  rfl

/-- C5: on a well-formed request the attachment filename is the string
organizationName_programName_Evaluation_Plan.html with every character that
is neither alphanumeric nor one of period, underscore, hyphen removed. -/
theorem send_report_filename_sanitized (data : List (String × Json))
    (send_email : EmailMessage → Except String Unit) (now now2 : DateTime)
    (email prog org html : String)
    (he : dictGet data "email" = .str email) (hee : email ≠ "")
    (hp : dictGet data "programName" = .str prog) (hpe : prog ≠ "")
    (ho : dictGet data "organizationName" = .str org) (hoe : org ≠ "")
    (hh : dictGet data "htmlContent" = .str html) (hhe : html ≠ "")
    (hsend : ∀ m, send_email m = .ok ()) :
    ∃ msg att, (send_report (.ok (.obj data)) send_email now now2).2 = [msg] ∧
      msg.attachments = [att] ∧
      att.filename = ((org ++ "_" ++ prog ++ "_Evaluation_Plan.html").toList.filter
        (fun c => c.isAlphanum || (c == '.' || c == '_' || c == '-'))).asString := by
  rw [send_report_wf_ok data send_email now now2 email prog org html
    he hee hp hpe ho hoe hh hhe (hsend _)]
  exact ⟨buildEmailMessage (.str email) (.str prog) (.str org) html now, _, rfl, rfl, rfl⟩

/-- Witness for C5 at the example of the claim: organizationName
"Acme Corp!" and programName "Youth/2024" give the sanitized filename
"AcmeCorp_Youth2024_Evaluation_Plan.html". -/
theorem send_report_filename_sanitized_witness :
    ∃ msg att, (send_report (.ok (.obj [("email", .str "a@b.c"),
        ("programName", .str "Youth/2024"), ("organizationName", .str "Acme Corp!"),
        ("htmlContent", .str "<p>x</p>")]))
      (fun _ => .ok ()) ⟨2026, 10, 12, 15, 5, 7, 123⟩ ⟨2026, 10, 12, 15, 5, 8, 9⟩).2
        = [msg] ∧
      msg.attachments = [att] ∧
      att.filename = "AcmeCorp_Youth2024_Evaluation_Plan.html" := by
  obtain ⟨msg, att, h1, h2, h3⟩ :=
    send_report_filename_sanitized [("email", .str "a@b.c"),
        ("programName", .str "Youth/2024"), ("organizationName", .str "Acme Corp!"),
        ("htmlContent", .str "<p>x</p>")]
      (fun _ => .ok ()) ⟨2026, 10, 12, 15, 5, 7, 123⟩ ⟨2026, 10, 12, 15, 5, 8, 9⟩
      "a@b.c" "Youth/2024" "Acme Corp!" "<p>x</p>"
      (by rfl) (by decide) (by rfl) (by decide) (by rfl) (by decide) (by rfl) (by decide)
      (fun m => rfl)
  exact ⟨msg, att, h1, h2, h3.trans (by rfl)⟩

set_option maxRecDepth 16384 in
/-- C6 counterexample: at a concrete well-formed request, the email body is
not the template interpolating the timestamp "Month Day, Year at HH:MM AM/PM"
with nothing after the AM/PM marker (the code appends a space, left behind by
the empty %Z directive). -/
theorem send_report_timestamp_cex :
    ((send_report (.ok (.obj [("email", .str "a@b.c"), ("programName", .str "P"),
        ("organizationName", .str "O"), ("htmlContent", .str "<p>x</p>")]))
      (fun _ => .ok ()) ⟨2026, 10, 12, 15, 5, 7, 123⟩ ⟨2026, 10, 12, 15, 5, 8, 9⟩).2.map
        EmailMessage.text) ≠
      [emailBodyTemplate "P" "O" (specTimestamp ⟨2026, 10, 12, 15, 5, 7, 123⟩)] := by
  decide

/-- C6 as amended: on a well-formed request the email body is the fixed
template interpolating programName, organizationName, and the timestamp
"Month Day, Year at HH:MM AM/PM" followed by exactly one trailing space. -/
theorem send_report_body_template (data : List (String × Json))
    (send_email : EmailMessage → Except String Unit) (now now2 : DateTime)
    (email prog org html : String)
    (he : dictGet data "email" = .str email) (hee : email ≠ "")
    (hp : dictGet data "programName" = .str prog) (hpe : prog ≠ "")
    (ho : dictGet data "organizationName" = .str org) (hoe : org ≠ "")
    (hh : dictGet data "htmlContent" = .str html) (hhe : html ≠ "")
    (hsend : ∀ m, send_email m = .ok ()) :
    ∃ msg, (send_report (.ok (.obj data)) send_email now now2).2 = [msg] ∧
      msg.text = emailBodyTemplate prog org (specTimestamp now ++ " ") := by
  rw [send_report_wf_ok data send_email now now2 email prog org html
    he hee hp hpe ho hoe hh hhe (hsend _)]
  refine ⟨buildEmailMessage (.str email) (.str prog) (.str org) html now, rfl, ?_⟩
  show emailBodyTemplate (pyStr (.str prog)) (pyStr (.str org)) (strftimeReport now) = _
  rw [strftimeReport_eq_specTimestamp]
  rfl

/-- Witness for the amended C6 at a concrete request and instant. -/
theorem send_report_body_template_witness :
    ∃ msg, (send_report (.ok (.obj [("email", .str "a@b.c"), ("programName", .str "P"),
        ("organizationName", .str "O"), ("htmlContent", .str "<p>x</p>")]))
      (fun _ => .ok ()) ⟨2026, 10, 12, 15, 5, 7, 123⟩ ⟨2026, 10, 12, 15, 5, 8, 9⟩).2
        = [msg] ∧
      msg.text = emailBodyTemplate "P" "O"
        (specTimestamp ⟨2026, 10, 12, 15, 5, 7, 123⟩ ++ " ") :=
  send_report_body_template [("email", .str "a@b.c"), ("programName", .str "P"),
      ("organizationName", .str "O"), ("htmlContent", .str "<p>x</p>")]
    (fun _ => .ok ()) ⟨2026, 10, 12, 15, 5, 7, 123⟩ ⟨2026, 10, 12, 15, 5, 8, 9⟩
    "a@b.c" "P" "O" "<p>x</p>"
    (by rfl) (by decide) (by rfl) (by decide) (by rfl) (by decide) (by rfl) (by decide)
    (fun m => rfl)

/-- C7: the health endpoint always answers 200 with status "healthy" and the
ISO-8601 rendering of the current instant; it consults no other state. -/
theorem health_check_always_200 (now : DateTime) :
    health_check now =
      { status := 200,
        body := .obj [("status", .str "healthy"), ("timestamp", .str (isoformat now))] } :=
  rfl

/-- C8: the mail-capability invocations of the handler are a deterministic
function of the request body and the first timestamp: they do not depend on
the mail capability itself nor on the response timestamp, so two runs with
the same ReportRequest and the same timestamp build identical EmailMessages. -/
theorem send_report_trace_deterministic (body : Except String Json)
    (send_email send_email' : EmailMessage → Except String Unit)
    (now now2 now2' : DateTime) :
    (send_report body send_email now now2).2 =
      (send_report body send_email' now now2').2 := by
  unfold send_report
  cases body with
  | error e => rfl
  | ok j =>
      cases j with
      | null => rfl
      | bool b => rfl
      | num n => rfl
      | str s => rfl
      | arr xs => rfl
      | obj data =>
          cases hf : required_fields.find? (fun field => pyFalsy (dictGet data field)) with
          | some f => simp [hf]
          | none =>
              simp only [hf]
              cases hc : dictGet data "htmlContent" with
              | str s =>
                  simp only [hc]
                  cases send_email (buildEmailMessage (dictGet data "email")
                      (dictGet data "programName") (dictGet data "organizationName") s now) <;>
                    cases send_email' (buildEmailMessage (dictGet data "email")
                      (dictGet data "programName") (dictGet data "organizationName") s now) <;>
                    rfl
              | null => simp [hc]
              | bool b => simp [hc]
              | num n => simp [hc]
              | arr xs => simp [hc]
              | obj kvs => simp [hc]

/-- C9: when the request body is absent or not a JSON object, the handler
answers 500 with a "Failed to send email: ..." body (the generic exception
handler), not a 400 validation error, and no send is attempted. -/
theorem send_report_nonobject_500 (body : Except String Json)
    (send_email : EmailMessage → Except String Unit) (now now2 : DateTime)
    (h : (∃ e, body = .error e) ∨ (∃ j, body = .ok j ∧ ∀ kvs, j ≠ Json.obj kvs)) :
    (send_report body send_email now now2).1.status = 500 ∧
      (∃ m, (send_report body send_email now now2).1.body =
        .obj [("error", .str ("Failed to send email: " ++ m))]) ∧
      (send_report body send_email now now2).2 = [] := by
  rcases h with ⟨e, rfl⟩ | ⟨j, rfl, hj⟩
  · exact ⟨rfl, ⟨e, rfl⟩, rfl⟩
  · cases j with
    | obj kvs => exact absurd rfl (hj kvs)
    | null => exact ⟨rfl, ⟨_, rfl⟩, rfl⟩
    | bool b => exact ⟨rfl, ⟨_, rfl⟩, rfl⟩
    | num n => exact ⟨rfl, ⟨_, rfl⟩, rfl⟩
    | str s => exact ⟨rfl, ⟨_, rfl⟩, rfl⟩
    | arr xs => exact ⟨rfl, ⟨_, rfl⟩, rfl⟩

/-- Witness for C9: a body whose JSON parsing raised (here with the Flask
BadRequest text) is answered 500 with the wrapped message and no send. -/
theorem send_report_nonobject_500_witness :
    (send_report (.error "400 Bad Request: Failed to decode JSON object")
        (fun _ => .ok ()) ⟨2026, 10, 12, 15, 5, 7, 123⟩ ⟨2026, 10, 12, 15, 5, 8, 9⟩).1.status
        = 500 ∧
      (∃ m, (send_report (.error "400 Bad Request: Failed to decode JSON object")
          (fun _ => .ok ()) ⟨2026, 10, 12, 15, 5, 7, 123⟩ ⟨2026, 10, 12, 15, 5, 8, 9⟩).1.body =
        .obj [("error", .str ("Failed to send email: " ++ m))]) ∧
      (send_report (.error "400 Bad Request: Failed to decode JSON object")
        (fun _ => .ok ()) ⟨2026, 10, 12, 15, 5, 7, 123⟩ ⟨2026, 10, 12, 15, 5, 8, 9⟩).2 = [] :=
  send_report_nonobject_500 (.error "400 Bad Request: Failed to decode JSON object")
    (fun _ => .ok ()) ⟨2026, 10, 12, 15, 5, 7, 123⟩ ⟨2026, 10, 12, 15, 5, 8, 9⟩
    (Or.inl ⟨"400 Bad Request: Failed to decode JSON object", rfl⟩)

/-- C10: whenever the handler answers 200 on a JSON-object body whose email
field is the string email, the response message field is exactly
"Email sent successfully to " followed by that email, echoed verbatim. -/
theorem send_report_success_message_echo (data : List (String × Json))
    (send_email : EmailMessage → Except String Unit) (now now2 : DateTime)
    (email : String)
    (he : dictGet data "email" = .str email)
    (h200 : (send_report (.ok (.obj data)) send_email now now2).1.status = 200) :
    (send_report (.ok (.obj data)) send_email now now2).1.body =
      .obj [("success", .bool true),
            ("message", .str ("Email sent successfully to " ++ email)),
            ("timestamp", .str (isoformat now2))] := by
  cases hf : required_fields.find? (fun field => pyFalsy (dictGet data field)) with
  | some f => simp [send_report, hf] at h200
  | none =>
      cases hc : dictGet data "htmlContent" with
      | str s =>
          cases hs : send_email (buildEmailMessage (dictGet data "email")
              (dictGet data "programName") (dictGet data "organizationName") s now) with
          | ok u => rw [he] at hs; simp [send_report, hf, hc, hs, he, pyStr]
          | error e => simp [send_report, hf, hc, hs] at h200
      | null => simp [send_report, hf, hc] at h200
      | bool b => simp [send_report, hf, hc] at h200
      | num n => simp [send_report, hf, hc] at h200
      | arr xs => simp [send_report, hf, hc] at h200
      | obj kvs => simp [send_report, hf, hc] at h200

/-- Witness for C10 at a concrete successful request. -/
theorem send_report_success_message_echo_witness :
    (send_report (.ok (.obj [("email", .str "user@example.com"),
        ("programName", .str "P"), ("organizationName", .str "O"),
        ("htmlContent", .str "<p>x</p>")]))
      (fun _ => .ok ()) ⟨2026, 10, 12, 15, 5, 7, 123⟩ ⟨2026, 10, 12, 15, 5, 8, 9⟩).1.body =
      .obj [("success", .bool true),
            ("message", .str ("Email sent successfully to " ++ "user@example.com")),
            ("timestamp", .str (isoformat ⟨2026, 10, 12, 15, 5, 8, 9⟩))] :=
  send_report_success_message_echo [("email", .str "user@example.com"),
      ("programName", .str "P"), ("organizationName", .str "O"),
      ("htmlContent", .str "<p>x</p>")]
    (fun _ => .ok ()) ⟨2026, 10, 12, 15, 5, 7, 123⟩ ⟨2026, 10, 12, 15, 5, 8, 9⟩
    "user@example.com" (by rfl) (by decide)

end EvalPlanner
